import Mathlib

/-!
Shallow embedding of the MoltBook personalization engine
(feature_04_personalization_engine.py) and verification of its
natural-language specification.

Modelling conventions:
- JSON dictionaries with a fixed key set become structures; Python dicts used
  as maps (ratings, genre counters) become insertion-ordered association lists
  with an update-or-append operation, mirroring dict assignment semantics.
- Optional JSON fields of catalog items become Option values; the Python
  accesses via dict.get with a default become getD with the same default.
- Floating point ratings are modelled as rationals; the engine only ever
  compares and sums them.
- Timestamps are uninterpreted strings. Date parsing in the new-in-genres filter is
  modelled by an explicit parameter parseDate : String → Option Int giving the
  parsed timestamp in days (none on a parse failure, mirroring the caught
  exception of datetime.fromisoformat), together with an explicit current
  time in days; the source condition (now - date).days <= 30 becomes
  now - d <= 30.
- Python list.sort with a key and reverse=True is a stable descending sort;
  it is modelled by the stable insertion sort sortDescBy below.
-/

namespace Personalization

/-- Interaction record appended to the user history by record_interaction. -/
structure Interaction where
  book_id : String
  action : String
  timestamp : String
  rating : Option Int
deriving Repr, DecidableEq

/-- Preferences dictionary as default-initialized by _load_user_data. -/
structure Preferences where
  genres : List String
  authors : List String
  themes : List String
  reading_level : String
  format_preference : List String
deriving Repr, DecidableEq

/-- User document: preferences, history, ratings, bookmarks, created_at. -/
structure UserData where
  preferences : Preferences
  history : List Interaction
  ratings : List (String × Int)
  bookmarks : List String
  created_at : String
deriving Repr, DecidableEq

/-- Catalog item; every field the engine reads via dict.get is optional. -/
structure CatalogItem where
  id : Option String
  title : Option String
  author : Option String
  genres : Option (List String)
  themes : Option (List String)
  reading_level : Option String
  formats : Option (List String)
  average_rating : Option ℚ
  popularity : Option ℚ
  recent_views : Option ℚ
  added_date : Option String
deriving Repr, DecidableEq

/-- Default user document returned by _load_user_data when no file exists. -/
def default_user_data (created_at : String) : UserData :=
  { preferences :=
      { genres := []
        authors := []
        themes := []
        reading_level := "general"
        format_preference := ["digital", "audio"] }
    history := []
    ratings := []
    bookmarks := []
    created_at := created_at }

/-- Python dict assignment d[k] = v on an insertion-ordered association list:
update the value in place when the key exists, else append. -/
def dictInsert (k : String) (v : Int) : List (String × Int) → List (String × Int)
  | [] => [(k, v)]
  | (k₀, v₀) :: rest =>
    if k₀ = k then (k, v) :: rest else (k₀, v₀) :: dictInsert k v rest

/-- Python dict lookup d[k] on an association list (first matching key). -/
def dictLookup (k : String) : List (String × Int) → Option Int
  | [] => none
  | (k₀, v₀) :: rest => if k₀ = k then some v₀ else dictLookup k rest

/-- Embedding of add_preference: the recognized categories are exactly the
keys of the default preferences dictionary; the four list-valued categories
append the value when absent, reading_level is overwritten, and any other
category name leaves the document unchanged (the source merely re-saves). -/
def add_preference (u : UserData) (category : String) (value : String) : UserData :=
  if category = "genres" then
    if value ∈ u.preferences.genres then u
    else { u with preferences.genres := u.preferences.genres ++ [value] }
  else if category = "authors" then
    if value ∈ u.preferences.authors then u
    else { u with preferences.authors := u.preferences.authors ++ [value] }
  else if category = "themes" then
    if value ∈ u.preferences.themes then u
    else { u with preferences.themes := u.preferences.themes ++ [value] }
  else if category = "reading_level" then
    { u with preferences.reading_level := value }
  else if category = "format_preference" then
    if value ∈ u.preferences.format_preference then u
    else { u with preferences.format_preference := u.preferences.format_preference ++ [value] }
  else u

/-- First statement of record_interaction: append the interaction record to
the history. -/
def historyStep (u : UserData) (interaction : Interaction) : UserData :=
  { u with history := u.history ++ [interaction] }

/-- Second statement of record_interaction: when the rating is truthy (not
None and not 0) write it into the ratings dictionary. -/
def ratingStep (u : UserData) (book_id : String) (rating : Option Int) : UserData :=
  match rating with
  | some r => if r ≠ 0 then { u with ratings := dictInsert book_id r u.ratings } else u
  | none => u

/-- Third statement of record_interaction: on a bookmarked action append the
book id to the bookmarks unless already present. -/
def bookmarkStep (u : UserData) (book_id : String) (act : String) : UserData :=
  if act = "bookmarked" then
    if book_id ∈ u.bookmarks then u
    else { u with bookmarks := u.bookmarks ++ [book_id] }
  else u

/-- Embedding of record_interaction as the sequence of its three mutations:
append to history, conditionally write the rating, conditionally bookmark. -/
def record_interaction (u : UserData) (book_id : String) (act : String)
    (timestamp : String) (rating : Option Int) : UserData :=
  bookmarkStep
    (ratingStep (historyStep u ⟨book_id, act, timestamp, rating⟩) book_id rating)
    book_id act

/-- Cardinality of the intersection of two string collections taken as sets,
the embedding of len(set(xs) & set(ys)). -/
def matchCount (xs ys : List String) : Nat :=
  (xs.dedup.filter (fun g => g ∈ ys)).length

/-- Embedding of _calculate_relevance_score. -/
def calculate_relevance_score (u : UserData) (book : CatalogItem) : Nat :=
  let prefs := u.preferences
  let s₁ := matchCount (book.genres.getD []) prefs.genres * 3
  let s₂ := if book.author.getD "" ∈ prefs.authors then 4 else 0
  let s₃ := matchCount (book.themes.getD []) prefs.themes * 2
  let s₄ := if book.reading_level = some prefs.reading_level then 2 else 0
  let s₅ := matchCount (book.formats.getD []) prefs.format_preference
  let avg := book.average_rating.getD 0
  let s₆ := if avg ≥ 45/10 then 5 else if avg ≥ 4 then 3 else 0
  s₁ + s₂ + s₃ + s₄ + s₅ + s₆

/-- Stable descending insertion step: the new element x stems from an earlier
position of the original list than everything in the already-sorted tail, so
it is placed before the first element not strictly greater than it. -/
def insertDescBy (lt : α → α → Prop) [DecidableRel lt] (x : α) : List α → List α
  | [] => [x]
  | y :: ys => if lt x y then y :: insertDescBy lt x ys else x :: y :: ys

/-- Stable descending sort, the model of Python list.sort(key, reverse=True). -/
def sortDescBy (lt : α → α → Prop) [DecidableRel lt] : List α → List α
  | [] => []
  | x :: xs => insertDescBy lt x (sortDescBy lt xs)

/-- Test used by get_recommendations to exclude already-interacted books:
true when the id of the book is present and appears as the book_id of some
history interaction (a book without an id is never excluded, since in the
source None is not a member of a set of id strings). -/
def idInHistory (book : CatalogItem) (history : List Interaction) : Bool :=
  match book.id with
  | some s => history.any (fun h => h.book_id = s)
  | none => false

/-- Pair ordering used by _get_default_recommendations: Python tuple
comparison on (average_rating, popularity). -/
def popLt (a b : CatalogItem) : Prop :=
  a.average_rating.getD 0 < b.average_rating.getD 0 ∨
    (a.average_rating.getD 0 = b.average_rating.getD 0 ∧
      a.popularity.getD 0 < b.popularity.getD 0)

instance : DecidableRel popLt := fun a b => by unfold popLt; infer_instance

/-- Embedding of _get_default_recommendations. -/
def get_default_recommendations (catalog : List CatalogItem) (n : Nat) : List CatalogItem :=
  if catalog = [] then []
  else (sortDescBy popLt catalog).take n

/-- Score ordering on (book, score) pairs used by get_recommendations. -/
def scoreLt (x y : CatalogItem × Nat) : Prop := x.2 < y.2

instance : DecidableRel scoreLt := fun x y => by unfold scoreLt; infer_instance

/-- Embedding of get_recommendations: on an empty catalog fall back to the
default recommendations; otherwise score every book, sort the (book, score)
pairs descending by score (stably), drop books whose id occurs in history,
and take the first n. -/
def get_recommendations (u : UserData) (catalog : List CatalogItem) (n : Nat) :
    List CatalogItem :=
  if catalog = [] then get_default_recommendations catalog n
  else
    (((sortDescBy scoreLt
        (catalog.map (fun book => (book, calculate_relevance_score u book)))).filter
      (fun bs => !idInHistory bs.1 u.history)).map Prod.fst).take n

/-- Embedding of _get_book_by_id: first catalog entry whose id matches. -/
def get_book_by_id (catalog : List CatalogItem) (book_id : String) : Option CatalogItem :=
  catalog.find? (fun book => book.id = some book_id)

/-- Embedding of _get_continue_reading: for every history interaction with
action started whose book id has no completed interaction anywhere in
history, look the book up in the catalog and collect it when found; finally
truncate to 3. -/
def get_continue_reading (u : UserData) (catalog : List CatalogItem) : List CatalogItem :=
  (u.history.filterMap (fun interaction =>
    if interaction.action == "started" then
      if u.history.any (fun h => h.book_id == interaction.book_id && h.action == "completed")
      then none
      else get_book_by_id catalog interaction.book_id
    else none)).take 3

/-- Embedding of _get_new_in_preferred_genres, parameterized by the date
parser and the current time in days (see the modelling conventions above):
keep catalog books sharing a genre with the genre preferences whose
added_date is a nonempty string that parses to a date at most 30 days before
now (parse failures are silently dropped), truncated to 5. -/
def get_new_in_preferred_genres (parseDate : String → Option Int) (now : Int)
    (u : UserData) (catalog : List CatalogItem) : List CatalogItem :=
  (catalog.filter (fun book =>
    (book.genres.getD []).any (fun g => g ∈ u.preferences.genres) &&
      (let added_date := book.added_date.getD ""
       added_date ≠ "" &&
         match parseDate added_date with
         | some date => now - date ≤ 30
         | none => false))).take 5

/-- Embedding of _get_trending: sort descending by recent_views, take 5. -/
def trendingLt (a b : CatalogItem) : Prop :=
  a.recent_views.getD 0 < b.recent_views.getD 0

instance : DecidableRel trendingLt := fun a b => by unfold trendingLt; infer_instance

/-- Embedding of _get_trending. -/
def get_trending (catalog : List CatalogItem) : List CatalogItem :=
  (sortDescBy trendingLt catalog).take 5

/-- Counter increment of a defaultdict(int) modelled as an insertion-ordered
association list: bump the count of the key, appending it at count 1 when
first seen. -/
def bump (k : String) : List (String × Nat) → List (String × Nat)
  | [] => [(k, 1)]
  | (k₀, c) :: rest =>
    if k₀ = k then (k₀, c + 1) :: rest else (k₀, c) :: bump k rest

/-- Rounding to two decimal places, the model of round(x, 2). The source
rounds a float half-to-even; exact halves of hundredths are the only inputs
where this model can differ, and no specified behavior depends on them. -/
def round2 (q : ℚ) : ℚ := (round (q * 100) : ℤ) / 100

/-- Result of analyze_preferences: either the fixed insufficient-data report
or the full report, mirroring the two dictionary shapes the source returns. -/
inductive AnalysisReport where
  | insufficient (message : String) (recommendations : List String)
  | full (top_genres : List String) (reading_patterns : List (String × Nat))
      (average_rating_given : ℚ) (total_books_interacted : Nat)
      (suggestions : List String)
deriving Repr, DecidableEq

/-- Embedding of _generate_preference_suggestions; its top_genres argument is
the list of (genre, count) pairs computed by analyze_preferences. -/
def generate_preference_suggestions (u : UserData) (top_genres : List (String × Nat)) :
    List String :=
  let s₁ : List String :=
    match top_genres with
    | [] => ["Explore different genres to get better recommendations"]
    | (g, _) :: _ =>
      if top_genres.length < 3 then
        ["You seem to like " ++ g ++ " - try exploring similar genres"]
      else []
  if u.ratings.length < 5 then
    s₁ ++ ["Rate more books to improve recommendations"]
  else s₁

/-- Pair ordering on genre counters used to pick the top genres. -/
def countLt (x y : String × Nat) : Prop := x.2 < y.2

instance : DecidableRel countLt := fun x y => by unfold countLt; infer_instance

/-- Embedding of analyze_preferences: the fixed report on an empty history;
otherwise tally genre occurrences of the catalog entries of history items
(missing lookups skipped), take the three most frequent genres (stable on
ties), tally actions, average the recorded ratings, count distinct item ids,
and assemble the suggestions. -/
def analyze_preferences (u : UserData) (catalog : List CatalogItem) : AnalysisReport :=
  if u.history = [] then
    .insufficient "Not enough data to analyze preferences"
      ["Start reading books to get personalized recommendations"]
  else
    let genre_counts : List (String × Nat) :=
      u.history.foldl (fun acc interaction =>
        match get_book_by_id catalog interaction.book_id with
        | some book => (book.genres.getD []).foldl (fun a g => bump g a) acc
        | none => acc) []
    let top_genres := (sortDescBy countLt genre_counts).take 3
    let actions : List (String × Nat) :=
      u.history.foldl (fun acc interaction => bump interaction.action acc) []
    let ratings : List Int := u.ratings.map Prod.snd
    let avg_rating : ℚ :=
      if ratings = [] then 0 else ((ratings.sum : ℤ) : ℚ) / (ratings.length : ℚ)
    .full (top_genres.map Prod.fst) actions (round2 avg_rating)
      ((u.history.map (fun h => h.book_id)).dedup.length)
      (generate_preference_suggestions u top_genres)

/-! Specification-side definitions, written from the wording of the claims
and compared with the source embeddings above. -/

/-- Rating bonus exactly as the specification words it: 5 when the average
rating is at least 4.5, else 3 when at least 4.0, else 0. -/
def specRatingBonus (avg : ℚ) : Nat :=
  if avg ≥ 4.5 then 5 else if avg ≥ 4 then 3 else 0

/-- Score formula as the specification words it: an additive sum of the six
terms with their fixed weights, absent optional fields contributing zero. -/
def scoreSpec (u : UserData) (item : CatalogItem) : Nat :=
  3 * matchCount (item.genres.getD []) u.preferences.genres +
    (if item.author.getD "" ∈ u.preferences.authors then 4 else 0) +
    2 * matchCount (item.themes.getD []) u.preferences.themes +
    (if item.reading_level = some u.preferences.reading_level then 2 else 0) +
    matchCount (item.formats.getD []) u.preferences.format_preference +
    specRatingBonus (item.average_rating.getD 0)

/-- Recommendation pipeline as the specification words it: sort the catalog
descending by score with the stable sort (original catalog order breaking
ties), exclude items whose id appears in history, take the first n. -/
def recommendSpec (u : UserData) (catalog : List CatalogItem) (n : Nat) :
    List CatalogItem :=
  ((sortDescBy (fun a b => calculate_relevance_score u a < calculate_relevance_score u b)
      catalog).filter (fun book => !idInHistory book u.history)).take n

/-- Continue-reading list as amended: one catalog entry per started
interaction whose item id has no completed interaction anywhere in history
(an id started several times contributes several entries), in history order,
ids missing from the catalog silently omitted, truncated to 3. -/
def continueReadingSpec (u : UserData) (catalog : List CatalogItem) : List CatalogItem :=
  ((u.history.filter (fun interaction =>
      interaction.action == "started" &&
        !(u.history.any (fun h =>
          h.book_id == interaction.book_id && h.action == "completed")))).filterMap
    (fun interaction => get_book_by_id catalog interaction.book_id)).take 3

/-- New-in-genres list as the specification words it: catalog items sharing
at least one genre with the genre preferences whose added_date is present
and parses to a timestamp within the last 30 days, truncated to 5; missing
or unparseable dates are silently excluded. -/
def newInGenresSpec (parseDate : String → Option Int) (now : Int)
    (u : UserData) (catalog : List CatalogItem) : List CatalogItem :=
  (catalog.filter (fun item =>
    (item.genres.getD []).any (fun g => g ∈ u.preferences.genres) &&
      match item.added_date with
      | some s =>
        match parseDate s with
        | some date => decide (now - date ≤ 30)
        | none => false
      | none => false)).take 5

/-- Uniqueness invariant of claim C6: every list-valued preference and the
bookmark list hold each value at most once. -/
def prefsNodup (u : UserData) : Prop :=
  u.preferences.genres.Nodup ∧ u.preferences.authors.Nodup ∧
    u.preferences.themes.Nodup ∧ u.preferences.format_preference.Nodup ∧
    u.bookmarks.Nodup

instance : DecidablePred prefsNodup := fun u => by unfold prefsNodup; infer_instance

/-! Helper lemmas about the generic operations of the embedding. -/

theorem mem_insertDescBy {α : Type} (lt : α → α → Prop) [DecidableRel lt] (x a : α)
    (l : List α) : a ∈ insertDescBy lt x l ↔ a = x ∨ a ∈ l := by
  induction l with
  | nil => simp [insertDescBy]
  | cons y ys ih =>
    by_cases h : lt x y
    · simp [insertDescBy, h, ih]; tauto
    · simp [insertDescBy, h]

theorem mem_sortDescBy {α : Type} (lt : α → α → Prop) [DecidableRel lt] (a : α)
    (l : List α) : a ∈ sortDescBy lt l ↔ a ∈ l := by
  induction l with
  | nil => simp [sortDescBy]
  | cons y ys ih => simp [sortDescBy, mem_insertDescBy, ih]

theorem matchCount_mono {xs ys ys₂ : List String} (h : ∀ a ∈ ys, a ∈ ys₂) :
    matchCount xs ys ≤ matchCount xs ys₂ := by
  refine (List.monotone_filter_right _ ?_).length_le
  intro a ha
  simp only [decide_eq_true_eq] at ha ⊢
  exact h a ha

theorem dictLookup_dictInsert (k : String) (v : Int) (l : List (String × Int)) :
    dictLookup k (dictInsert k v l) = some v := by
  induction l with
  | nil => simp [dictInsert, dictLookup]
  | cons p rest ih =>
    obtain ⟨k₀, v₀⟩ := p
    by_cases h : k₀ = k <;> simp [dictInsert, dictLookup, h, ih]

theorem insertDescBy_pair (f : CatalogItem → Nat) (b : CatalogItem)
    (m : List CatalogItem) :
    insertDescBy scoreLt (b, f b) (m.map (fun c => (c, f c))) =
      (insertDescBy (fun a c => f a < f c) b m).map (fun c => (c, f c)) := by
  induction m with
  | nil => simp [insertDescBy]
  | cons y ys ih =>
    by_cases h : f b < f y <;> simp [insertDescBy, scoreLt, h, ih]

theorem sortDescBy_pair (f : CatalogItem → Nat) (l : List CatalogItem) :
    sortDescBy scoreLt (l.map (fun c => (c, f c))) =
      (sortDescBy (fun a c => f a < f c) l).map (fun c => (c, f c)) := by
  induction l with
  | nil => simp [sortDescBy]
  | cons y ys ih => simp [sortDescBy, ih, insertDescBy_pair]

theorem nodup_append_single {l : List String} {v : String} (h : l.Nodup) (hv : v ∉ l) :
    (l ++ [v]).Nodup := by
  simp [List.nodup_append, h, hv]

theorem filterMap_guard {α β : Type} (p q : α → Bool) (f : α → Option β) (l : List α) :
    l.filterMap (fun a => if p a then (if q a then none else f a) else none) =
      (l.filter (fun a => p a && !q a)).filterMap f := by
  induction l with
  | nil => rfl
  | cons a t ih =>
    cases hp : p a <;> cases hq : q a <;>
      simp [List.filter_cons, List.filterMap_cons, hp, hq, ih]

theorem ratingStep_preferences (u : UserData) (bid : String) (r : Option Int) :
    (ratingStep u bid r).preferences = u.preferences := by
  rcases r with _ | r₀
  · rfl
  · simp only [ratingStep]
    split_ifs <;> rfl

theorem ratingStep_history (u : UserData) (bid : String) (r : Option Int) :
    (ratingStep u bid r).history = u.history := by
  rcases r with _ | r₀
  · rfl
  · simp only [ratingStep]
    split_ifs <;> rfl

theorem ratingStep_bookmarks (u : UserData) (bid : String) (r : Option Int) :
    (ratingStep u bid r).bookmarks = u.bookmarks := by
  rcases r with _ | r₀
  · rfl
  · simp only [ratingStep]
    split_ifs <;> rfl

theorem ratingStep_ratings_truthy (u : UserData) (bid : String) (r₀ : Int) (hr : r₀ ≠ 0) :
    (ratingStep u bid (some r₀)).ratings = dictInsert bid r₀ u.ratings := by
  simp only [ratingStep]
  rw [if_pos hr]

theorem bookmarkStep_preferences (u : UserData) (bid act : String) :
    (bookmarkStep u bid act).preferences = u.preferences := by
  unfold bookmarkStep
  split_ifs <;> rfl

theorem bookmarkStep_history (u : UserData) (bid act : String) :
    (bookmarkStep u bid act).history = u.history := by
  unfold bookmarkStep
  split_ifs <;> rfl

theorem bookmarkStep_ratings (u : UserData) (bid act : String) :
    (bookmarkStep u bid act).ratings = u.ratings := by
  unfold bookmarkStep
  split_ifs <;> rfl

theorem bookmarkStep_bookmarks_cases (u : UserData) (bid act : String) :
    (bookmarkStep u bid act).bookmarks = u.bookmarks ∨
      ((bookmarkStep u bid act).bookmarks = u.bookmarks ++ [bid] ∧ bid ∉ u.bookmarks) := by
  unfold bookmarkStep
  split_ifs with h₁ h₂
  · exact Or.inl rfl
  · exact Or.inr ⟨rfl, h₂⟩
  · exact Or.inl rfl

theorem record_interaction_preferences (u : UserData) (bid act ts : String)
    (r : Option Int) : (record_interaction u bid act ts r).preferences = u.preferences := by
  unfold record_interaction
  rw [bookmarkStep_preferences, ratingStep_preferences]
  rfl

theorem record_interaction_history (u : UserData) (bid act ts : String) (r : Option Int) :
    (record_interaction u bid act ts r).history = u.history ++ [⟨bid, act, ts, r⟩] := by
  unfold record_interaction
  rw [bookmarkStep_history, ratingStep_history]
  rfl

theorem record_interaction_ratings_truthy (u : UserData) (bid act ts : String)
    (r₀ : Int) (hr : r₀ ≠ 0) :
    (record_interaction u bid act ts (some r₀)).ratings = dictInsert bid r₀ u.ratings := by
  unfold record_interaction
  rw [bookmarkStep_ratings, ratingStep_ratings_truthy _ _ _ hr]
  rfl

theorem record_interaction_bookmarks_cases (u : UserData) (bid act ts : String)
    (r : Option Int) :
    (record_interaction u bid act ts r).bookmarks = u.bookmarks ∨
      ((record_interaction u bid act ts r).bookmarks = u.bookmarks ++ [bid] ∧
        bid ∉ u.bookmarks) := by
  unfold record_interaction
  have h₁ : (ratingStep (historyStep u ⟨bid, act, ts, r⟩) bid r).bookmarks = u.bookmarks :=
    ratingStep_bookmarks _ _ _
  rcases bookmarkStep_bookmarks_cases (ratingStep (historyStep u ⟨bid, act, ts, r⟩) bid r)
      bid act with h | ⟨h, hmem⟩
  · exact Or.inl (by rw [h, h₁])
  · refine Or.inr ⟨by rw [h, h₁], ?_⟩
    rw [h₁] at hmem
    exact hmem

/-! Concrete fixtures used by witnesses and counterexamples. -/

/-- Catalog item with every optional field absent. -/
def emptyItem : CatalogItem :=
  ⟨none, none, none, none, none, none, none, none, none, none, none⟩

/-- Catalog item with id a and the single genre scifi. -/
def scifiItem : CatalogItem :=
  { emptyItem with
    id := some "a"
    genres := some ["scifi"] }

/-- Default user document whose genre preferences hold scifi. -/
def scifiUser : UserData :=
  { default_user_data "t0" with preferences.genres := ["scifi"] }

/-- User document whose history starts the same book twice and completes
nothing. -/
def startedTwiceUser : UserData :=
  { default_user_data "t0" with history :=
      [⟨"b1", "started", "t1", none⟩, ⟨"b1", "started", "t2", none⟩] }

/-- Catalog entry for the book started twice. -/
def b1Item : CatalogItem := { emptyItem with id := some "b1" }

/-! Claim theorems. -/

/-- C1: for every profile and catalog item the relevance score equals the
additive specification formula: 3 per genre present in both the item genres
and the genre preferences, flat 4 on an author match, 2 per shared theme,
flat 2 on a reading-level match, 1 per shared format, plus exactly one of 5
(average rating at least 4.5), 3 (at least 4.0) or 0; absent optional fields
contribute zero and never cause a failure. -/
theorem c1_score_formula (u : UserData) (item : CatalogItem) :
    calculate_relevance_score u item = scoreSpec u item := by
  have h45 : (4.5 : ℚ) = 45 / 10 := by norm_num
  simp only [calculate_relevance_score, scoreSpec, specRatingBonus, h45]
  omega

/-- C8: on an empty history analyze_preferences returns the fixed
insufficient-data report carrying the generic suggestion, raises nothing,
and is independent of the catalog. -/
theorem c8_analyze_empty_history (u : UserData) (catalog : List CatalogItem)
    (h : u.history = []) :
    analyze_preferences u catalog =
        .insufficient "Not enough data to analyze preferences"
          ["Start reading books to get personalized recommendations"] ∧
      ∀ catalog₂ : List CatalogItem,
        analyze_preferences u catalog = analyze_preferences u catalog₂ := by
  constructor
  · simp [analyze_preferences, h]
  · intro catalog₂
    simp [analyze_preferences, h]

/-- Witness for C8 at the default user document and the empty catalog. -/
theorem c8_analyze_empty_history_witness :
    analyze_preferences (default_user_data "t0") [] =
      .insufficient "Not enough data to analyze preferences"
        ["Start reading books to get personalized recommendations"] :=
  (c8_analyze_empty_history (default_user_data "t0") [] rfl).1

/-- C9: the relevance score is monotone in the genre term (adding to the
genre preferences a genre the item carries never decreases the score, all
other fields of the profile and the item held equal) and the score is a
deterministic function of its inputs. -/
theorem c9_score_genre_monotone (u : UserData) (book : CatalogItem) (g : String)
    (_hg : g ∈ book.genres.getD []) :
    calculate_relevance_score u book ≤
        calculate_relevance_score
          { u with preferences.genres := u.preferences.genres ++ [g] } book ∧
      ∀ (u₂ : UserData) (book₂ : CatalogItem), u₂ = u → book₂ = book →
        calculate_relevance_score u₂ book₂ = calculate_relevance_score u book := by
  refine ⟨?_, by intro u₂ book₂ h₁ h₂; rw [h₁, h₂]⟩
  have hmono : matchCount (book.genres.getD []) u.preferences.genres ≤
      matchCount (book.genres.getD []) (u.preferences.genres ++ [g]) :=
    matchCount_mono (fun a ha => List.mem_append_left _ ha)
  simp only [calculate_relevance_score]
  dsimp only
  omega

/-- Witness for C9: adding scifi for an item carrying that genre. -/
theorem c9_score_genre_monotone_witness :
    "scifi" ∈ (scifiItem.genres.getD []) ∧
      calculate_relevance_score (default_user_data "t0") scifiItem ≤
        calculate_relevance_score
          { default_user_data "t0" with
            preferences.genres := (default_user_data "t0").preferences.genres ++ ["scifi"] }
          scifiItem :=
  ⟨by decide,
    (c9_score_genre_monotone (default_user_data "t0") scifiItem "scifi" (by decide)).1⟩

/-- C10: calling add_preference with a category name that is not a key of
the preferences dictionary leaves the whole user document unchanged. -/
theorem c10_add_preference_unknown_category (u : UserData) (category value : String)
    (h : category ∉ ["genres", "authors", "themes", "reading_level", "format_preference"]) :
    add_preference u category value = u := by
  simp only [List.mem_cons, List.not_mem_nil, or_false, not_or] at h
  obtain ⟨h₁, h₂, h₃, h₄, h₅⟩ := h
  simp [add_preference, h₁, h₂, h₃, h₄, h₅]

/-- C2: for every profile, catalog and n the recommendation list holds at
most n items, every returned item is an element of the catalog, and no
returned item has an id equal to the book id of any history interaction. -/
theorem c2_recommendations_sound (u : UserData) (catalog : List CatalogItem) (n : Nat) :
    (get_recommendations u catalog n).length ≤ n ∧
      (∀ book ∈ get_recommendations u catalog n, book ∈ catalog) ∧
      (∀ book ∈ get_recommendations u catalog n, ∀ s, book.id = some s →
        ∀ i ∈ u.history, i.book_id ≠ s) := by
  by_cases hc : catalog = []
  · subst hc
    simp [get_recommendations, get_default_recommendations]
  · unfold get_recommendations
    rw [if_neg hc]
    refine ⟨List.length_take_le _ _, ?_, ?_⟩
    · intro book hb
      obtain ⟨pair, hpair, hfst⟩ := List.mem_map.mp (List.mem_of_mem_take hb)
      have hs := (mem_sortDescBy scoreLt pair _).mp (List.mem_filter.mp hpair).1
      obtain ⟨c, hcmem, hpc⟩ := List.mem_map.mp hs
      rw [← hfst, ← hpc]
      exact hcmem
    · intro book hb s hid i hi heq
      obtain ⟨pair, hpair, hfst⟩ := List.mem_map.mp (List.mem_of_mem_take hb)
      have hfalse : idInHistory book u.history = false := by
        have h₂ := (List.mem_filter.mp hpair).2
        rw [hfst] at h₂
        simpa using h₂
      unfold idInHistory at hfalse
      rw [hid] at hfalse
      simp only [List.any_eq_false, decide_eq_true_eq] at hfalse
      exact hfalse i hi heq

/-- Witness for C2 at a singleton catalog. -/
theorem c2_recommendations_sound_witness :
    (get_recommendations scifiUser [scifiItem] 1).length ≤ 1 :=
  (c2_recommendations_sound scifiUser [scifiItem] 1).1

/-- C3: on a non-empty catalog the recommendations equal the specification
pipeline: score every item, sort descending by score with the stable sort
(original catalog order breaking ties), exclude items whose id occurs in
history, and take the first n; when fewer than n remain the remainder is
returned with no padding and no error. -/
theorem c3_recommendations_pipeline (u : UserData) (catalog : List CatalogItem)
    (n : Nat) (h : catalog ≠ []) :
    get_recommendations u catalog n = recommendSpec u catalog n := by
  unfold get_recommendations recommendSpec
  rw [if_neg h]
  rw [sortDescBy_pair (calculate_relevance_score u)]
  rw [List.filter_map]
  rw [List.map_map]
  simp [Function.comp_def]

/-- Witness for C3 at a non-empty catalog. -/
theorem c3_recommendations_pipeline_witness :
    [scifiItem] ≠ ([] : List CatalogItem) ∧
      get_recommendations scifiUser [scifiItem] 1 =
        recommendSpec scifiUser [scifiItem] 1 :=
  ⟨List.cons_ne_nil _ _,
    c3_recommendations_pipeline scifiUser [scifiItem] 1 (List.cons_ne_nil _ _)⟩

/-- Counterexample for C4 as stated: with two started interactions for the
same book id and no completed record anywhere, the continue-reading list
carries the catalog entry for that id twice, so its item ids are not
deduplicated. -/
theorem c4_continue_reading_counterexample :
    get_continue_reading startedTwiceUser [b1Item] = [b1Item, b1Item] ∧
      ¬ ((get_continue_reading startedTwiceUser [b1Item]).map CatalogItem.id).Nodup := by
  decide

/-- C4 amended: the continue-reading part consists of one catalog entry per
started interaction in history whose item id has no completed interaction
anywhere in history, in history order, with ids missing from the catalog
silently omitted and the result truncated to 3; the entries are NOT
deduplicated, so an id started several times contributes several entries. -/
theorem c4_continue_reading_amended (u : UserData) (catalog : List CatalogItem) :
    get_continue_reading u catalog = continueReadingSpec u catalog := by
  unfold get_continue_reading continueReadingSpec
  exact congrArg (fun l => List.take 3 l)
    (filterMap_guard (fun interaction => interaction.action == "started")
      (fun interaction => u.history.any fun h =>
        h.book_id == interaction.book_id && h.action == "completed")
      (fun interaction => get_book_by_id catalog interaction.book_id) u.history)

/-- C5: recording two interactions for the same book id carrying two ratings
in the range 1 to 5 leaves the ratings entry of that id at the second
rating (last-write-wins) while the history retains both records in insertion
order. -/
theorem c5_rating_last_write_wins (u : UserData) (book_id a₁ a₂ t₁ t₂ : String)
    (r₁ r₂ : Int) (h₁ : 1 ≤ r₁) (h₂ : r₁ ≤ 5) (h₃ : 1 ≤ r₂) (h₄ : r₂ ≤ 5)
    (_h₅ : r₁ ≠ r₂) :
    dictLookup book_id
        (record_interaction (record_interaction u book_id a₁ t₁ (some r₁))
          book_id a₂ t₂ (some r₂)).ratings = some r₂ ∧
      (record_interaction (record_interaction u book_id a₁ t₁ (some r₁))
          book_id a₂ t₂ (some r₂)).history =
        u.history ++ [⟨book_id, a₁, t₁, some r₁⟩, ⟨book_id, a₂, t₂, some r₂⟩] := by
  have hr₁ : r₁ ≠ 0 := by omega
  have hr₂ : r₂ ≠ 0 := by omega
  constructor
  · rw [record_interaction_ratings_truthy _ _ _ _ _ hr₂,
      record_interaction_ratings_truthy _ _ _ _ _ hr₁, dictLookup_dictInsert]
  · rw [record_interaction_history, record_interaction_history, List.append_assoc]
    rfl

/-- Witness for C5 with ratings 3 then 5 for the same book id. -/
theorem c5_rating_last_write_wins_witness :
    (1 : ℤ) ≤ 3 ∧ (3 : ℤ) ≤ 5 ∧ (1 : ℤ) ≤ 5 ∧ (5 : ℤ) ≤ 5 ∧ (3 : ℤ) ≠ 5 ∧
      dictLookup "x"
          (record_interaction
            (record_interaction (default_user_data "t0") "x" "rated" "t1" (some 3))
            "x" "rated" "t2" (some 5)).ratings = some 5 :=
  ⟨by decide, by decide, by decide, by decide, by decide,
    (c5_rating_last_write_wins (default_user_data "t0") "x" "rated" "rated" "t1" "t2" 3 5
      (by decide) (by decide) (by decide) (by decide) (by decide)).1⟩

/-- C6: the uniqueness invariant (each list-valued preference and the
bookmark list hold each value at most once) holds of a freshly
default-initialized document, is preserved by every add_preference and every
record_interaction call, and add_preference is idempotent on genres: adding
the same genre twice leaves exactly one occurrence in the genres list. -/
theorem c6_uniqueness_invariant :
    (∀ t : String, prefsNodup (default_user_data t)) ∧
      (∀ (u : UserData) (category value : String), prefsNodup u →
        prefsNodup (add_preference u category value)) ∧
      (∀ (u : UserData) (book_id act timestamp : String) (rating : Option Int),
        prefsNodup u → prefsNodup (record_interaction u book_id act timestamp rating)) ∧
      (∀ (u : UserData) (g : String), prefsNodup u →
        (add_preference (add_preference u "genres" g) "genres" g).preferences.genres.count g
          = 1) := by
  refine ⟨?_, ?_, ?_, ?_⟩
  · intro t
    have hfp : (["digital", "audio"] : List String).Nodup := by decide
    exact ⟨List.nodup_nil, List.nodup_nil, List.nodup_nil, hfp, List.nodup_nil⟩
  · intro u category value hu
    unfold prefsNodup at hu ⊢
    obtain ⟨hg, ha, ht, hf, hb⟩ := hu
    unfold add_preference
    split_ifs <;>
      first
        | exact ⟨hg, ha, ht, hf, hb⟩
        | (rename_i hmem
           first
             | exact ⟨nodup_append_single hg hmem, ha, ht, hf, hb⟩
             | exact ⟨hg, nodup_append_single ha hmem, ht, hf, hb⟩
             | exact ⟨hg, ha, nodup_append_single ht hmem, hf, hb⟩
             | exact ⟨hg, ha, ht, nodup_append_single hf hmem, hb⟩)
  · intro u book_id act timestamp rating hu
    unfold prefsNodup at hu ⊢
    obtain ⟨hg, ha, ht, hf, hb⟩ := hu
    have hp := record_interaction_preferences u book_id act timestamp rating
    refine ⟨by rw [hp]; exact hg, by rw [hp]; exact ha, by rw [hp]; exact ht,
      by rw [hp]; exact hf, ?_⟩
    rcases record_interaction_bookmarks_cases u book_id act timestamp rating with
      h | ⟨h, hmem⟩
    · rw [h]
      exact hb
    · rw [h]
      exact nodup_append_single hb hmem
  · intro u g hu
    obtain ⟨hg, -, -, -, -⟩ := hu
    by_cases hmem : g ∈ u.preferences.genres
    · have h1 : add_preference u "genres" g = u := by simp [add_preference, hmem]
      rw [h1, h1]
      exact List.count_eq_one_of_mem hg hmem
    · have h1 : add_preference u "genres" g =
          { u with preferences.genres := u.preferences.genres ++ [g] } := by
        simp [add_preference, hmem]
      have h2 : add_preference
          ({ u with preferences.genres := u.preferences.genres ++ [g] } : UserData)
          "genres" g =
          { u with preferences.genres := u.preferences.genres ++ [g] } := by
        simp [add_preference]
      rw [h1, h2]
      simp [List.count_append, List.count_eq_zero_of_not_mem hmem]

/-- Witness for C6: the invariant holds of the default document and adding
the genre scifi twice leaves one occurrence. -/
theorem c6_uniqueness_invariant_witness :
    prefsNodup (default_user_data "t0") ∧
      (add_preference (add_preference (default_user_data "t0") "genres" "scifi")
        "genres" "scifi").preferences.genres.count "scifi" = 1 :=
  ⟨by decide,
    c6_uniqueness_invariant.2.2.2 (default_user_data "t0") "scifi" (by decide)⟩

/-- Date parser fixture used by the C7 witness: parses only d30, to day 80. -/
def exampleParseDate (s : String) : Option Int :=
  if s = "d30" then some 80 else none

/-- C7: the new-in-genres feed part equals the specification filter —
catalog items sharing at least one genre with the genre preferences whose
added_date is present and parses to a timestamp within the last 30 days,
truncated to 5; items with a missing or unparseable added_date are silently
excluded and no exception propagates. The 30-day window is the source
condition now minus date at most 30 days, and the hypothesis records that
the empty string is unparseable, as with the fromisoformat parser. -/
theorem c7_new_in_genres (parseDate : String → Option Int) (now : Int)
    (u : UserData) (catalog : List CatalogItem) (hp : parseDate "" = none) :
    get_new_in_preferred_genres parseDate now u catalog =
      newInGenresSpec parseDate now u catalog := by
  unfold get_new_in_preferred_genres newInGenresSpec
  congr 1
  apply List.filter_congr
  intro book _
  rcases hbd : book.added_date with _ | s
  · simp [hbd]
  · by_cases hs : s = ""
    · subst hs
      simp [hbd, hp]
    · simp [hbd, hs]

/-- Witness for C7 with a parser that fails on the empty string. -/
theorem c7_new_in_genres_witness :
    exampleParseDate "" = none ∧
      get_new_in_preferred_genres exampleParseDate 100 scifiUser [scifiItem] =
        newInGenresSpec exampleParseDate 100 scifiUser [scifiItem] :=
  ⟨by decide, c7_new_in_genres exampleParseDate 100 scifiUser [scifiItem] (by decide)⟩

/-- Witness for C10: the unrecognized category bookmarks leaves the default
document unchanged. -/
theorem c10_add_preference_unknown_category_witness :
    ("bookmarks" : String) ∉
        ["genres", "authors", "themes", "reading_level", "format_preference"] ∧
      add_preference (default_user_data "t0") "bookmarks" "x" = default_user_data "t0" :=
  ⟨by decide, c10_add_preference_unknown_category _ _ _ (by decide)⟩

end Personalization
